import Mathlib

/-
Verification of the DeepShell configuration and credential management
subsystem.  The definitions below are a shallow embedding of the Python
sources (gemini.py, settings.py, main.py): Python dicts holding the
persisted JSON document become Lean structures, optional dict entries
become Option fields, and each interactive flow is modelled as a pure
function from the pre-state plus the raw user inputs of that flow to an
outcome carrying the post-state.  Python string truthiness (None and the
empty string are both falsy) is modelled explicitly wherever the source
tests a string with a bare if.
-/

/-- Model of Python str.strip(): drop whitespace from both ends.  The
inputs the program strips are menu answers and nicknames, for which
ASCII whitespace is the relevant case. -/
def pyStrip (s : String) : String :=
  ⟨((s.data.dropWhile Char.isWhitespace).reverse.dropWhile Char.isWhitespace).reverse⟩

/-- Model of Python str.lower(): lowercase each character.  The program
only lowercases single-letter menu answers. -/
def pyLower (s : String) : String :=
  ⟨s.data.map Char.toLower⟩

/-- Decimal digits to a number, or none when empty or non-digit. -/
def parseDigits (cs : List Char) : Option Nat :=
  if cs ≠ [] ∧ cs.all Char.isDigit then
    some (cs.foldl (fun acc c => acc * 10 + (c.toNat - 48)) 0)
  else none

/-- Model of Python int(s): strip, then an optional sign followed by at
least one digit; anything else (including the empty string) raises
ValueError, modelled as none. -/
def pyParseInt (s : String) : Option Int :=
  match (pyStrip s).data with
  | '-' :: rest => (parseDigits rest).map (fun n => -(n : Int))
  | '+' :: rest => (parseDigits rest).map (fun n => (n : Int))
  | cs => (parseDigits cs).map (fun n => (n : Int))

/-- One stored credential: an entry of the api_keys list, a dict with
keys nickname and key in the source. -/
structure ApiKey where
  nickname : String
  key : String
deriving Repr, DecidableEq, Inhabited

/-- One entry of the llm_services mapping.  The source keeps a plain
dict per service; the fields used by the core logic are the selected
model, the server address (ollama) and the credential set (gemini).
The display preference render_markdown is pass-through only and is not
modelled. -/
structure ServiceConfig where
  model : Option String
  server_address : Option String
  api_keys : List ApiKey
  active_api_key_nickname : Option String
deriving Repr, DecidableEq, Inhabited

/-- The persisted document root (the config dict of the source):
active service pointer, previously active service pointer, and the
service-name to service-config mapping (a dict, modelled as an
association list looked up by key). -/
structure Config where
  active_llm_service : Option String
  previous_active_llm_service : Option String
  llm_services : List (String × ServiceConfig)
deriving Repr, DecidableEq, Inhabited

/-- gemini.py _find_key_by_nickname: first entry of the list whose
nickname equals the given one, or none. -/
def find_key_by_nickname (nickname : String) (keys_list : List ApiKey) : Option ApiKey :=
  keys_list.find? (fun item => item.nickname == nickname)

/-- gemini.py _get_key_value_by_nickname: the key value for a nickname,
or none. -/
def get_key_value_by_nickname (nickname : String) (keys_list : List ApiKey) : Option String :=
  (find_key_by_nickname nickname keys_list).map (fun item => item.key)

/-- gemini.py _get_active_gemini_key_value.  Returns the pair
(key value, nickname) following the source exactly: if the active
nickname is falsy (absent, None or the empty string) or the api_keys
list is empty, the result is (none, none); if an entry matches the
active nickname the result is (its key, the nickname); otherwise the
pointer dangles and the result is (none, the nickname). -/
def get_active_gemini_key_value (sc : ServiceConfig) : Option String × Option String :=
  match sc.active_api_key_nickname with
  | none => (none, none)
  | some a =>
    if a = "" then (none, none)
    else if sc.api_keys.isEmpty then (none, none)
    else
      match find_key_by_nickname a sc.api_keys with
      | some k => (some k.key, some a)
      | none => (none, some a)

/-- Outcome of one pass through the add-key branch of the interactive
menu (choice 1 in gemini.py).  Every outcome carries the resulting
credential state; the three failure outcomes leave it unchanged by
construction of addKeyFlow. -/
inductive AddOutcome
  | emptyNickname (c : ServiceConfig)
  | duplicateNickname (c : ServiceConfig)
  | emptySecret (c : ServiceConfig)
  | added (offered : Bool) (c : ServiceConfig)
deriving Repr, DecidableEq

/-- gemini.py choice 1 of _manage_gemini_api_keys_interactive_menu, one
pass: the raw nickname input is stripped; an empty nickname re-prompts,
a duplicate nickname re-prompts, an empty secret aborts the add; on
success the entry is appended and the user is always asked whether to
make the new key active (offered = true); the answer stripped and
lowercased equal to y or empty (bare Enter) sets the active nickname. -/
def addKeyFlow (c : ServiceConfig) (rawNickname rawSecret offerAnswer : String) : AddOutcome :=
  let nickname := pyStrip rawNickname
  if nickname = "" then .emptyNickname c
  else if (find_key_by_nickname nickname c.api_keys).isSome then .duplicateNickname c
  else
    let secret := pyStrip rawSecret
    if secret = "" then .emptySecret c
    else
      let c1 : ServiceConfig := { c with api_keys := c.api_keys ++ [⟨nickname, secret⟩] }
      let ans := pyLower (pyStrip offerAnswer)
      if ans = "y" ∨ ans = "" then
        .added true { c1 with active_api_key_nickname := some nickname }
      else
        .added true c1

/-- The post-state carried by an AddOutcome. -/
def AddOutcome.state : AddOutcome → ServiceConfig
  | .emptyNickname c => c
  | .duplicateNickname c => c
  | .emptySecret c => c
  | .added _ c => c

/-- Whether the add flow reached the prompt offering to activate the
new key (only successful adds prompt). -/
def AddOutcome.offerMade : AddOutcome → Bool
  | .added o _ => o
  | _ => false

/-- gemini.py choice 3, the state change applied once a valid removal
index has been entered: pop the entry at the index; if the removed
nickname was the active one, clear the active nickname; then, if
exactly one entry remains, promote it to active (the source compares
the current active nickname with the sole remaining nickname and
assigns it when they differ, which in all cases leaves the sole
nickname active). -/
def applyRemoval (c : ServiceConfig) (i : Nat) : ServiceConfig :=
  match c.api_keys[i]? with
  | none => c
  | some removedKey =>
    let keysAfter := c.api_keys.eraseIdx i
    let activeAfterClear : Option String :=
      if c.active_api_key_nickname = some removedKey.nickname then none
      else c.active_api_key_nickname
    if keysAfter.length = 1 then
      let sole := keysAfter.headI
      if activeAfterClear ≠ some sole.nickname then
        { c with api_keys := keysAfter, active_api_key_nickname := some sole.nickname }
      else
        { c with api_keys := keysAfter, active_api_key_nickname := activeAfterClear }
    else
      { c with api_keys := keysAfter, active_api_key_nickname := activeAfterClear }

/-- Outcome of one pass through the remove-key branch of the
interactive menu (choice 3 in gemini.py).  Every outcome carries the
resulting credential state. -/
inductive RemoveOutcome
  | removed (c : ServiceConfig)
  | cancelledRemoval (c : ServiceConfig)
  | invalidSelection (c : ServiceConfig)
  | invalidInput (c : ServiceConfig)
deriving Repr, DecidableEq

/-- gemini.py choice 3, one pass: the raw input is stripped and parsed
as an int (ValueError gives invalidInput and changes nothing); index
in range removes that entry via applyRemoval; the index one past the
end is the explicit cancel option; any other number is an invalid
selection.  The menu shows 1-based numbers, so the source subtracts
one. -/
def removeKeyFlow (c : ServiceConfig) (rawChoice : String) : RemoveOutcome :=
  match pyParseInt rawChoice with
  | none => .invalidInput c
  | some v =>
    let idx : Int := v - 1
    if 0 ≤ idx ∧ idx < (c.api_keys.length : Int) then
      .removed (applyRemoval c idx.toNat)
    else if idx = (c.api_keys.length : Int) then
      .cancelledRemoval c
    else
      .invalidSelection c

/-- Whether a removal pass actually removed an entry. -/
def RemoveOutcome.removalHappened : RemoveOutcome → Bool
  | .removed _ => true
  | _ => false

/-- The post-state carried by a RemoveOutcome. -/
def RemoveOutcome.state : RemoveOutcome → ServiceConfig
  | .removed c => c
  | .cancelledRemoval c => c
  | .invalidSelection c => c
  | .invalidInput c => c

/-- Nicknames as the add flow itself creates them: stripped and
nonempty (every entry appended by choice 1 has a nickname of the form
input.strip() checked nonempty).  Quantifications over every credential
set in the claims are read over sets whose nicknames have this shape. -/
def wfNicknames (keys_list : List ApiKey) : Bool :=
  keys_list.all (fun k => pyStrip k.nickname == k.nickname && k.nickname != "")

/-- Lookup of a service name in the llm_services mapping, modelling
dict membership and dict get on the services dict. -/
def Config.getService (c : Config) (name : String) : Option ServiceConfig :=
  c.llm_services.lookup name

/-- Outcome of settings.py jump_to_previous_llm (the exit paths of the
function). -/
inductive JumpOutcome
  | noPreviousService
  | staleService
  | alreadyActive
  | jumped
deriving Repr, DecidableEq

/-- Result of a settings.py operation: the outcome, the config state
after the call, and whether save_config was invoked on that state. -/
structure JumpResult where
  outcome : JumpOutcome
  config : Config
  saved : Bool
deriving Repr, DecidableEq

/-- settings.py jump_to_previous_llm on a loaded config: a falsy
previous pointer (absent, None or the empty string) reports that there
is nothing to jump to and changes nothing; a previous service that is
no longer a key of llm_services is stale, is cleared, and the cleared
config is saved while the call still fails; a previous equal to the
current active performs no jump; otherwise the two pointers swap (the
current active, possibly None, becomes the new previous) and the result
is saved. -/
def jump_to_previous_llm (c : Config) : JumpResult :=
  let current := c.active_llm_service
  match c.previous_active_llm_service with
  | none => ⟨.noPreviousService, c, false⟩
  | some p =>
    if p = "" then ⟨.noPreviousService, c, false⟩
    else if (c.getService p).isNone then
      ⟨.staleService, { c with previous_active_llm_service := none }, true⟩
    else if current = some p then
      ⟨.alreadyActive, c, false⟩
    else
      ⟨.jumped,
       { c with active_llm_service := some p, previous_active_llm_service := current },
       true⟩

/-- Outcome of the chosen-service part of settings.py
_handle_switch_active_llm. -/
inductive SwitchOutcome
  | switched
  | alreadyActive
deriving Repr, DecidableEq

/-- Result of the switch operation: outcome, post-state, and whether
save_config was invoked. -/
structure SwitchResult where
  outcome : SwitchOutcome
  config : Config
  saved : Bool
deriving Repr, DecidableEq

/-- settings.py _handle_switch_active_llm after a configured service
has been chosen from the menu: if the chosen service is not already the
active one, active_llm_service is overwritten with it, the old active
(when truthy, i.e. set and nonempty) is recorded into
previous_active_llm_service, and the config is saved; otherwise nothing
changes and nothing is saved. -/
def handle_switch_active_llm (c : Config) (chosen : String) : SwitchResult :=
  if c.active_llm_service ≠ some chosen then
    let c1 := { c with active_llm_service := some chosen }
    match c.active_llm_service with
    | some prior =>
      if prior ≠ "" then
        ⟨.switched, { c1 with previous_active_llm_service := some prior }, true⟩
      else
        ⟨.switched, c1, true⟩
    | none => ⟨.switched, c1, true⟩
  else
    ⟨.alreadyActive, c, false⟩

/-- Outcome of settings.py delete_config_file once the file exists:
bare Enter or y (after strip and lower) deletes the file, anything else
cancels and leaves it in place. -/
inductive DeleteOutcome
  | deleted
  | cancelledByUser
  | nothingToDelete
deriving Repr, DecidableEq

/-- settings.py delete_config_file: no file means nothing to delete;
otherwise the confirmation answer is stripped and lowercased, and the
file is unlinked exactly when the answer is y or empty (the default-yes
on bare Enter). -/
def delete_config_file (fileExists : Bool) (confirmRaw : String) : DeleteOutcome :=
  if !fileExists then .nothingToDelete
  else
    let confirm := pyLower (pyStrip confirmRaw)
    if confirm = "y" ∨ confirm = "" then .deleted
    else .cancelledByUser

/-- Content of the configuration path: either a document this program
wrote (the json library round-trips the JSON-representable config dict,
so the stored content is modelled at the document level), or content
that does not parse as JSON. -/
inductive FileContent
  | jsonDoc (c : Config)
  | invalid
deriving Repr, DecidableEq

/-- The on-disk state: path to content, newest write first. -/
abbrev Store := List (String × FileContent)

/-- Result of settings.py load_config: FileNotFoundError yields None
(the expected first-run case, Absent), a parse failure reports the
corruption and exits, otherwise the parsed document is returned. -/
inductive LoadResult
  | absent
  | loaded (c : Config)
  | corruptExit
deriving Repr, DecidableEq

/-- settings.py load_config over the modelled store. -/
def load_config (store : Store) (path : String) : LoadResult :=
  match List.lookup path store with
  | none => .absent
  | some (.jsonDoc c) => .loaded c
  | some .invalid => .corruptExit

/-- settings.py save_config: a normal write failure (writeOk false) is
caught and reported, returning False with the store unchanged; on
success the document is written at the path and True is returned. -/
def save_config (store : Store) (path : String) (c : Config) (writeOk : Bool) :
    Bool × Store :=
  if writeOk then (true, (path, .jsonDoc c) :: store)
  else (false, store)

/-- The failure kinds of the dispatch path at the end of main.py main.
The source checks the active pointer and its presence in llm_services
in one combined branch with a single message, so those two states share
one constructor. -/
inductive DispatchError
  | noActiveOrUnconfigured
  | noModelSelected
  | noServerAddress
  | noActiveCredential
deriving Repr, DecidableEq

/-- What the dispatch path resolves to: a failure, an ollama query
(address and model), a gemini query (key value, nickname for display,
model), or no backend branch taken (an active service name that is
neither ollama nor gemini; the source then sends nothing). -/
inductive DispatchOutcome
  | failure (e : DispatchError)
  | ollamaQuery (address modelName : String)
  | geminiQuery (apiKey : String) (nickname : Option String) (modelName : String)
  | noBackend
deriving Repr, DecidableEq

/-- The dispatch resolution of main.py main (the checks run before a
query is sent): one combined check that the active service pointer is
truthy and is a key of llm_services; then the model of that profile
must be truthy; then for ollama the server address must be truthy, and
for gemini the active key value resolved by
get_active_gemini_key_value must be truthy. -/
def resolveDispatchTarget (c : Config) : DispatchOutcome :=
  match c.active_llm_service with
  | none => .failure .noActiveOrUnconfigured
  | some name =>
    if name = "" then .failure .noActiveOrUnconfigured
    else
      match c.getService name with
      | none => .failure .noActiveOrUnconfigured
      | some sc =>
        match sc.model with
        | none => .failure .noModelSelected
        | some m =>
          if m = "" then .failure .noModelSelected
          else if name = "ollama" then
            match sc.server_address with
            | none => .failure .noServerAddress
            | some addr =>
              if addr = "" then .failure .noServerAddress
              else .ollamaQuery addr m
          else if name = "gemini" then
            match get_active_gemini_key_value sc with
            | (none, _) => .failure .noActiveCredential
            | (some key, nick) =>
              if key = "" then .failure .noActiveCredential
              else .geminiQuery key nick m
          else .noBackend

example : addKeyFlow ⟨none, none, [], none⟩ "work" "sk-abc" "" =
    .added true ⟨none, none, [⟨"work", "sk-abc"⟩], some "work"⟩ := by decide

example : get_active_gemini_key_value ⟨none, none, [⟨"work", "sk-abc"⟩], some "work"⟩ =
    (some "sk-abc", some "work") := by decide

example : applyRemoval ⟨none, none, [⟨"work", "k1"⟩, ⟨"home", "k2"⟩], some "work"⟩ 0 =
    ⟨none, none, [⟨"home", "k2"⟩], some "home"⟩ := by decide

example : removeKeyFlow ⟨none, none, [⟨"work", "k1"⟩], some "work"⟩ "" =
    .invalidInput ⟨none, none, [⟨"work", "k1"⟩], some "work"⟩ := by decide

/-- C1: removing the entry that is currently active leaves the active
nickname none when zero or two-or-more entries remain, and promotes the
sole remaining entry to active (with no explicit activate step) when
exactly one entry remains. -/
theorem remove_active_promotes_sole_remaining (c : ServiceConfig) (i : Nat) (k : ApiKey)
    (hk : c.api_keys[i]? = some k)
    (hact : c.active_api_key_nickname = some k.nickname) :
    (applyRemoval c i).api_keys = c.api_keys.eraseIdx i ∧
    (∀ sole, (applyRemoval c i).api_keys = [sole] →
       (applyRemoval c i).active_api_key_nickname = some sole.nickname) ∧
    ((applyRemoval c i).api_keys.length ≠ 1 →
       (applyRemoval c i).active_api_key_nickname = none) := by
  unfold applyRemoval
  rw [hk]
  dsimp only
  rw [hact, if_pos rfl]
  by_cases h1 : (c.api_keys.eraseIdx i).length = 1
  · rw [if_pos h1]
    have hne : (none : Option String) ≠ some (c.api_keys.eraseIdx i).headI.nickname := by
      simp
    rw [if_pos hne]
    refine ⟨rfl, ?_, ?_⟩
    · intro sole hsole
      replace hsole : c.api_keys.eraseIdx i = [sole] := hsole
      show some (c.api_keys.eraseIdx i).headI.nickname = some sole.nickname
      rw [hsole]
      rfl
    · intro hlen
      exact absurd h1 hlen
  · rw [if_neg h1]
    refine ⟨rfl, ?_, fun _ => rfl⟩
    intro sole hsole
    replace hsole : c.api_keys.eraseIdx i = [sole] := hsole
    exact absurd (by rw [hsole]; rfl) h1

/-- C1 witness: a concrete two-entry set with the active entry removed;
the sole remaining entry home is promoted. -/
theorem remove_active_promotes_sole_remaining_witness :
    (applyRemoval ⟨none, none, [⟨"work", "k1"⟩, ⟨"home", "k2"⟩], some "work"⟩ 0).api_keys =
        [⟨"home", "k2"⟩] ∧
    (applyRemoval ⟨none, none, [⟨"work", "k1"⟩, ⟨"home", "k2"⟩], some "work"⟩
        0).active_api_key_nickname = some "home" := by
  have h := remove_active_promotes_sole_remaining
    ⟨none, none, [⟨"work", "k1"⟩, ⟨"home", "k2"⟩], some "work"⟩ 0 ⟨"work", "k1"⟩
    (by decide) (by decide)
  exact ⟨by decide, h.2.1 ⟨"home", "k2"⟩ (by decide)⟩

/-- C2: adding a nickname that is already present (exact, case
sensitive match) reports the duplicate and leaves the credential set,
entries and active nickname alike, unchanged.  Credential sets are
quantified over well-formed nickname lists (stripped, nonempty), the
shape every entry created by the add flow has. -/
theorem add_duplicate_nickname_unchanged (c : ServiceConfig) (n s a : String)
    (hwf : wfNicknames c.api_keys = true)
    (hmem : (find_key_by_nickname n c.api_keys).isSome) :
    addKeyFlow c n s a = .duplicateNickname c := by
  obtain ⟨k, hk⟩ := Option.isSome_iff_exists.mp hmem
  rw [find_key_by_nickname] at hk
  have hkmem : k ∈ c.api_keys := List.mem_of_find?_eq_some hk
  have hpk := List.find?_some hk
  have hn : k.nickname = n := by simpa using hpk
  have hwfk := List.all_eq_true.mp hwf k hkmem
  have hstrip : pyStrip n = n := by
    have := (Bool.and_eq_true _ _).mp hwfk |>.1
    rw [hn] at this
    simpa using this
  have hne : n ≠ "" := by
    have := (Bool.and_eq_true _ _).mp hwfk |>.2
    rw [hn] at this
    simpa using this
  unfold addKeyFlow
  rw [hstrip, if_neg hne, if_pos hmem]

/-- C2 witness: adding the already present nickname work to a concrete
set reports the duplicate and changes nothing. -/
theorem add_duplicate_nickname_unchanged_witness :
    addKeyFlow ⟨none, none, [⟨"work", "sk-abc"⟩], some "work"⟩ "work" "sk-new" "" =
      .duplicateNickname ⟨none, none, [⟨"work", "sk-abc"⟩], some "work"⟩ :=
  add_duplicate_nickname_unchanged ⟨none, none, [⟨"work", "sk-abc"⟩], some "work"⟩
    "work" "sk-new" "" (by decide) (by decide)

/-- C3: with both pointers set to distinct configured service names,
one jump swaps the active and previous pointers and a second jump
restores the original pair.  Service names are drawn from the fixed
closed set of backend names and are therefore nonempty. -/
theorem jump_to_previous_involution (c : Config) (a p : String)
    (ha : c.active_llm_service = some a)
    (hp : c.previous_active_llm_service = some p)
    (hne : a ≠ p) (ha0 : a ≠ "") (hp0 : p ≠ "")
    (hamem : (c.getService a).isSome)
    (hpmem : (c.getService p).isSome) :
    (jump_to_previous_llm c).outcome = .jumped ∧
    (jump_to_previous_llm c).config.active_llm_service = some p ∧
    (jump_to_previous_llm c).config.previous_active_llm_service = some a ∧
    (jump_to_previous_llm (jump_to_previous_llm c).config).outcome = .jumped ∧
    (jump_to_previous_llm (jump_to_previous_llm c).config).config.active_llm_service = some a ∧
    (jump_to_previous_llm (jump_to_previous_llm c).config).config.previous_active_llm_service
      = some p := by
  have hnotnone : ¬ (c.getService p).isNone := by
    rw [Option.isNone_iff_eq_none]
    intro hcontra
    rw [hcontra] at hpmem
    simp at hpmem
  have hcur : ¬ c.active_llm_service = some p := by
    rw [ha]
    simpa using hne
  have step1 : jump_to_previous_llm c =
      ⟨.jumped,
       { c with active_llm_service := some p,
                previous_active_llm_service := some a },
       true⟩ := by
    unfold jump_to_previous_llm
    rw [hp]
    dsimp only
    rw [if_neg hp0, if_neg hnotnone, if_neg hcur, ha]
  have hnotnone1 :
      ¬ (({ c with active_llm_service := some p,
                   previous_active_llm_service := some a } : Config).getService a).isNone := by
    show ¬ (c.getService a).isNone
    rw [Option.isNone_iff_eq_none]
    intro hcontra
    rw [hcontra] at hamem
    simp at hamem
  have hcur1 :
      ¬ ({ c with active_llm_service := some p,
                  previous_active_llm_service := some a } : Config).active_llm_service
        = some a := by
    show ¬ some p = some a
    simpa using fun h => hne h.symm
  have step2 : jump_to_previous_llm
      ({ c with active_llm_service := some p,
                previous_active_llm_service := some a } : Config) =
      ⟨.jumped,
       { c with active_llm_service := some a,
                previous_active_llm_service := some p },
       true⟩ := by
    unfold jump_to_previous_llm
    dsimp only
    rw [if_neg ha0, if_neg hnotnone1, if_neg hcur1]
  rw [step1]
  dsimp only
  rw [step2]
  exact ⟨rfl, rfl, rfl, rfl, rfl, rfl⟩

/-- C3 witness: registry with services serverA and cloudB, active
cloudB, previous serverA; one jump swaps, a second restores. -/
theorem jump_to_previous_involution_witness :
    (jump_to_previous_llm
      ⟨some "cloudB", some "serverA",
       [("serverA", ⟨none, none, [], none⟩), ("cloudB", ⟨none, none, [], none⟩)]⟩).outcome
      = .jumped ∧
    (jump_to_previous_llm
      ⟨some "cloudB", some "serverA",
       [("serverA", ⟨none, none, [], none⟩),
        ("cloudB", ⟨none, none, [], none⟩)]⟩).config.active_llm_service = some "serverA" ∧
    (jump_to_previous_llm (jump_to_previous_llm
      ⟨some "cloudB", some "serverA",
       [("serverA", ⟨none, none, [], none⟩),
        ("cloudB", ⟨none, none, [], none⟩)]⟩).config).config.active_llm_service
      = some "cloudB" := by
  have h := jump_to_previous_involution
    ⟨some "cloudB", some "serverA",
     [("serverA", ⟨none, none, [], none⟩), ("cloudB", ⟨none, none, [], none⟩)]⟩
    "cloudB" "serverA" rfl rfl (by decide) (by decide) (by decide) (by decide) (by decide)
  exact ⟨h.1, h.2.1, h.2.2.2.2.1⟩

/-- C4: a previous pointer naming a service that is no longer
configured makes the jump fail as stale, clear the pointer, and save
that cleared state while the active pointer is untouched; an unset
previous pointer makes the jump fail with nothing recorded and changes
nothing (nothing is saved). -/
theorem jump_to_previous_stale_and_none (c : Config) :
    (∀ p, c.previous_active_llm_service = some p → p ≠ "" →
       c.getService p = none →
       jump_to_previous_llm c =
         ⟨.staleService, { c with previous_active_llm_service := none }, true⟩) ∧
    (c.previous_active_llm_service = none →
       jump_to_previous_llm c = ⟨.noPreviousService, c, false⟩) := by
  constructor
  · intro p hp hp0 hmiss
    unfold jump_to_previous_llm
    rw [hp]
    dsimp only
    rw [if_neg hp0, if_pos (by rw [hmiss]; rfl)]
  · intro hp
    unfold jump_to_previous_llm
    rw [hp]

/-- C4 witness: previous points at deletedSvc which is not configured;
the jump is stale, clears the pointer, keeps active, and saves; and a
registry with no previous pointer fails without changes. -/
theorem jump_to_previous_stale_and_none_witness :
    jump_to_previous_llm
        ⟨some "ollama", some "deletedSvc", [("ollama", ⟨none, none, [], none⟩)]⟩ =
      ⟨.staleService, ⟨some "ollama", none, [("ollama", ⟨none, none, [], none⟩)]⟩, true⟩ ∧
    jump_to_previous_llm ⟨some "ollama", none, [("ollama", ⟨none, none, [], none⟩)]⟩ =
      ⟨.noPreviousService, ⟨some "ollama", none, [("ollama", ⟨none, none, [], none⟩)]⟩,
       false⟩ := by
  constructor
  · exact (jump_to_previous_stale_and_none
      ⟨some "ollama", some "deletedSvc", [("ollama", ⟨none, none, [], none⟩)]⟩).1
      "deletedSvc" rfl (by decide) (by decide)
  · exact (jump_to_previous_stale_and_none
      ⟨some "ollama", none, [("ollama", ⟨none, none, [], none⟩)]⟩).2 rfl

/-- C6: switching the active service to a configured name different
from the current active one records the current active (when set) into
the previous pointer and overwrites the active pointer; switching to
the name that is already active changes nothing and saves nothing. -/
theorem switch_active_records_previous (c : Config) (name : String)
    (_hmem : (c.getService name).isSome) :
    (c.active_llm_service ≠ some name →
       (handle_switch_active_llm c name).outcome = .switched ∧
       (handle_switch_active_llm c name).config.active_llm_service = some name ∧
       (∀ prior, c.active_llm_service = some prior → prior ≠ "" →
          (handle_switch_active_llm c name).config.previous_active_llm_service = some prior) ∧
       (c.active_llm_service = none →
          (handle_switch_active_llm c name).config.previous_active_llm_service =
            c.previous_active_llm_service)) ∧
    (c.active_llm_service = some name →
       handle_switch_active_llm c name = ⟨.alreadyActive, c, false⟩) := by
  constructor
  · intro hdiff
    unfold handle_switch_active_llm
    rw [if_pos hdiff]
    rcases hcase : c.active_llm_service with _ | prior
    · exact ⟨rfl, rfl, fun q hq => absurd hq (by simp), fun _ => rfl⟩
    · dsimp only
      by_cases hq0 : prior ≠ ""
      · rw [if_pos hq0]
        refine ⟨rfl, rfl, ?_, ?_⟩
        · intro q hq _
          show some prior = some q
          injection hq with hq
          rw [hq]
        · intro hnone
          exact absurd hnone (by simp)
      · rw [if_neg hq0]
        refine ⟨rfl, rfl, ?_, ?_⟩
        · intro q hq hqne
          injection hq with hq
          exact absurd (by rw [hq]; exact hqne) hq0
        · intro hnone
          exact absurd hnone (by simp)
  · intro heq
    unfold handle_switch_active_llm
    rw [if_neg (by rw [heq]; simp)]

/-- C6 witness: active serverA, switch to configured cloudB; previous
becomes serverA and active becomes cloudB; switching to serverA while
serverA is active changes nothing. -/
theorem switch_active_records_previous_witness :
    (handle_switch_active_llm
      ⟨some "serverA", none,
       [("serverA", ⟨none, none, [], none⟩),
        ("cloudB", ⟨none, none, [], none⟩)]⟩ "cloudB").config.active_llm_service
      = some "cloudB" ∧
    (handle_switch_active_llm
      ⟨some "serverA", none,
       [("serverA", ⟨none, none, [], none⟩),
        ("cloudB", ⟨none, none, [], none⟩)]⟩ "cloudB").config.previous_active_llm_service
      = some "serverA" ∧
    handle_switch_active_llm
        ⟨some "serverA", none,
         [("serverA", ⟨none, none, [], none⟩), ("cloudB", ⟨none, none, [], none⟩)]⟩
        "serverA" =
      ⟨.alreadyActive,
       ⟨some "serverA", none,
        [("serverA", ⟨none, none, [], none⟩), ("cloudB", ⟨none, none, [], none⟩)]⟩,
       false⟩ := by
  have h1 := switch_active_records_previous
    ⟨some "serverA", none,
     [("serverA", ⟨none, none, [], none⟩), ("cloudB", ⟨none, none, [], none⟩)]⟩
    "cloudB" (by decide)
  have h2 := switch_active_records_previous
    ⟨some "serverA", none,
     [("serverA", ⟨none, none, [], none⟩), ("cloudB", ⟨none, none, [], none⟩)]⟩
    "serverA" (by decide)
  exact ⟨(h1.1 (by decide)).2.1,
         (h1.1 (by decide)).2.2.1 "serverA" rfl (by decide),
         h2.2 rfl⟩

/-- C5 counterexample: the dispatch path of main.py checks the active
pointer and its presence in llm_services in a single combined branch
with a single message, so the state with no active pointer and the
state with a dangling active pointer produce the same outcome: they are
not distinguishable error kinds, contrary to the claim. -/
theorem dispatch_error_kinds_counterexample :
    resolveDispatchTarget ⟨none, none, []⟩ =
      resolveDispatchTarget ⟨some "gemini", none, []⟩ ∧
    resolveDispatchTarget ⟨none, none, []⟩ = .failure .noActiveOrUnconfigured := by
  decide

/-- C5 amended: the no-pointer state and the dangling-pointer state
both fail with the one combined error kind; a configured profile with
no model fails with the distinct no-model kind; the gemini backend with
no usable credential fails with the distinct no-credential kind; the
three kinds are pairwise distinct. -/
theorem dispatch_error_kinds_amended (c : Config) (name : String) (sc : ServiceConfig) :
    (c.active_llm_service = none →
       resolveDispatchTarget c = .failure .noActiveOrUnconfigured) ∧
    (c.active_llm_service = some name → name ≠ "" → c.getService name = none →
       resolveDispatchTarget c = .failure .noActiveOrUnconfigured) ∧
    (c.active_llm_service = some name → name ≠ "" → c.getService name = some sc →
       sc.model = none → resolveDispatchTarget c = .failure .noModelSelected) ∧
    (∀ m, c.active_llm_service = some "gemini" → c.getService "gemini" = some sc →
       sc.model = some m → m ≠ "" →
       (get_active_gemini_key_value sc).1 = none →
       resolveDispatchTarget c = .failure .noActiveCredential) ∧
    (DispatchError.noActiveOrUnconfigured ≠ DispatchError.noModelSelected ∧
     DispatchError.noActiveOrUnconfigured ≠ DispatchError.noActiveCredential ∧
     DispatchError.noModelSelected ≠ DispatchError.noActiveCredential) := by
  refine ⟨?_, ?_, ?_, ?_, by decide⟩
  · intro hnone
    unfold resolveDispatchTarget
    rw [hnone]
  · intro hact hname hmiss
    unfold resolveDispatchTarget
    rw [hact]
    dsimp only
    rw [if_neg hname, hmiss]
  · intro hact hname hserv hmodel
    unfold resolveDispatchTarget
    rw [hact]
    dsimp only
    rw [if_neg hname, hserv]
    dsimp only
    rw [hmodel]
  · intro m hact hserv hmodel hm hcred
    unfold resolveDispatchTarget
    rw [hact]
    dsimp only
    rw [if_neg (by decide), hserv]
    dsimp only
    rw [hmodel]
    dsimp only
    rw [if_neg hm, if_neg (by decide), if_pos rfl]
    rcases hpair : get_active_gemini_key_value sc with ⟨v, nick⟩
    rw [hpair] at hcred
    cases v with
    | none => rfl
    | some k => simp at hcred

/-- C5 amended witness: the four failing registries and the
distinctness facts at concrete inputs. -/
theorem dispatch_error_kinds_amended_witness :
    resolveDispatchTarget ⟨none, none, []⟩ = .failure .noActiveOrUnconfigured ∧
    resolveDispatchTarget ⟨some "ollama", none, []⟩ = .failure .noActiveOrUnconfigured ∧
    resolveDispatchTarget
        ⟨some "ollama", none, [("ollama", ⟨none, none, [], none⟩)]⟩ =
      .failure .noModelSelected ∧
    resolveDispatchTarget
        ⟨some "gemini", none, [("gemini", ⟨some "models/gemini-pro", none, [], none⟩)]⟩ =
      .failure .noActiveCredential := by
  have h1 := dispatch_error_kinds_amended ⟨none, none, []⟩ "x" ⟨none, none, [], none⟩
  have h2 := dispatch_error_kinds_amended ⟨some "ollama", none, []⟩ "ollama"
    ⟨none, none, [], none⟩
  have h3 := dispatch_error_kinds_amended
    ⟨some "ollama", none, [("ollama", ⟨none, none, [], none⟩)]⟩ "ollama"
    ⟨none, none, [], none⟩
  have h4 := dispatch_error_kinds_amended
    ⟨some "gemini", none, [("gemini", ⟨some "models/gemini-pro", none, [], none⟩)]⟩
    "gemini" ⟨some "models/gemini-pro", none, [], none⟩
  exact ⟨h1.1 rfl,
         h2.2.1 rfl (by decide) (by decide),
         h3.2.2.1 rfl (by decide) (by decide) rfl,
         h4.2.2.2.1 "models/gemini-pro" rfl (by decide) rfl (by decide) (by decide)⟩

/-- C7 counterexample: with the active nickname set to work but the
entries list empty, the claim predicts the dangling-pointer shape
(None, nickname); the source tests the nickname and the list in one
combined truthiness check and returns (None, None) instead. -/
theorem resolve_active_counterexample :
    get_active_gemini_key_value ⟨none, none, [], some "work"⟩ ≠ (none, some "work") ∧
    get_active_gemini_key_value ⟨none, none, [], some "work"⟩ = (none, none) := by
  decide

/-- C7 amended: with a truthy (set, nonempty) active nickname and a
nonempty entries list, resolution returns (secret, nickname) on a match
and (None, nickname) on a dangling pointer; with no active nickname, an
empty-string nickname, or an empty entries list it returns
(None, None). -/
theorem resolve_active_amended (sc : ServiceConfig) :
    (∀ a k, sc.active_api_key_nickname = some a → a ≠ "" →
       find_key_by_nickname a sc.api_keys = some k →
       get_active_gemini_key_value sc = (some k.key, some a)) ∧
    (∀ a, sc.active_api_key_nickname = some a → a ≠ "" → sc.api_keys ≠ [] →
       find_key_by_nickname a sc.api_keys = none →
       get_active_gemini_key_value sc = (none, some a)) ∧
    (sc.active_api_key_nickname = none → get_active_gemini_key_value sc = (none, none)) ∧
    (∀ a, sc.active_api_key_nickname = some a → (a = "" ∨ sc.api_keys = []) →
       get_active_gemini_key_value sc = (none, none)) := by
  refine ⟨?_, ?_, ?_, ?_⟩
  · intro a k hact ha hfind
    have hne : ¬ sc.api_keys.isEmpty := by
      intro hcontra
      rw [List.isEmpty_iff.mp hcontra] at hfind
      simp [find_key_by_nickname] at hfind
    unfold get_active_gemini_key_value
    rw [hact]
    dsimp only
    rw [if_neg ha, if_neg hne, hfind]
  · intro a hact ha hne hfind
    unfold get_active_gemini_key_value
    rw [hact]
    dsimp only
    rw [if_neg ha, if_neg (by rwa [List.isEmpty_iff]), hfind]
  · intro hact
    unfold get_active_gemini_key_value
    rw [hact]
  · intro a hact hor
    unfold get_active_gemini_key_value
    rw [hact]
    dsimp only
    rcases hor with h0 | h0
    · rw [if_pos h0]
    · by_cases ha : a = ""
      · rw [if_pos ha]
      · rw [if_neg ha, if_pos (List.isEmpty_iff.mpr h0)]

/-- C7 amended witness: a matching entry, a dangling pointer beside a
nonempty list, an unset pointer, and a set pointer over an empty list,
all at concrete credential sets. -/
theorem resolve_active_amended_witness :
    get_active_gemini_key_value ⟨none, none, [⟨"work", "sk-abc"⟩], some "work"⟩ =
      (some "sk-abc", some "work") ∧
    get_active_gemini_key_value ⟨none, none, [⟨"home", "sk-h"⟩], some "work"⟩ =
      (none, some "work") ∧
    get_active_gemini_key_value ⟨none, none, [⟨"work", "sk-abc"⟩], none⟩ = (none, none) ∧
    get_active_gemini_key_value ⟨none, none, [], some "work"⟩ = (none, none) := by
  have h1 := resolve_active_amended ⟨none, none, [⟨"work", "sk-abc"⟩], some "work"⟩
  have h2 := resolve_active_amended ⟨none, none, [⟨"home", "sk-h"⟩], some "work"⟩
  have h3 := resolve_active_amended ⟨none, none, [⟨"work", "sk-abc"⟩], none⟩
  have h4 := resolve_active_amended ⟨none, none, [], some "work"⟩
  exact ⟨h1.1 "work" ⟨"work", "sk-abc"⟩ rfl (by decide) (by decide),
         h2.2.1 "work" rfl (by decide) (by decide) (by decide),
         h3.2.2.1 rfl,
         h4.2.2.2 "work" rfl (Or.inr rfl)⟩

/-- C8 counterexample: a credential set with a resolvable active
credential (work resolves to sk-abc) and a nonempty entries list; a
successful add of home still reaches the make-active offer prompt,
which the claim says must not happen in this state. -/
theorem add_offer_counterexample :
    AddOutcome.offerMade
        (addKeyFlow ⟨none, none, [⟨"work", "sk-abc"⟩], some "work"⟩ "home" "sk-xyz" "n")
      = true ∧
    (get_active_gemini_key_value ⟨none, none, [⟨"work", "sk-abc"⟩], some "work"⟩).1 =
      some "sk-abc" ∧
    (⟨none, none, [⟨"work", "sk-abc"⟩], some "work"⟩ : ServiceConfig).api_keys ≠ [] := by
  decide

/-- C8 amended: every successful add (nonempty stripped nickname not
already present, nonempty stripped secret) reaches the offer prompt,
unconditionally; answering y or bare Enter sets the active nickname to
the new entry, any other answer leaves the active nickname unchanged
(the entry is appended either way). -/
theorem add_always_offers (c : ServiceConfig) (n s a : String)
    (hn : pyStrip n ≠ "")
    (hdup : find_key_by_nickname (pyStrip n) c.api_keys = none)
    (hs : pyStrip s ≠ "") :
    (pyLower (pyStrip a) = "y" ∨ pyLower (pyStrip a) = "" →
       addKeyFlow c n s a = .added true
         { c with api_keys := c.api_keys ++ [⟨pyStrip n, pyStrip s⟩],
                  active_api_key_nickname := some (pyStrip n) }) ∧
    (pyLower (pyStrip a) ≠ "y" → pyLower (pyStrip a) ≠ "" →
       addKeyFlow c n s a = .added true
         { c with api_keys := c.api_keys ++ [⟨pyStrip n, pyStrip s⟩] }) := by
  have hdup2 : ¬ (find_key_by_nickname (pyStrip n) c.api_keys).isSome := by
    rw [hdup]
    simp
  constructor
  · intro hyes
    unfold addKeyFlow
    rw [if_neg hn, if_neg hdup2, if_neg hs, if_pos hyes]
  · intro hy he
    unfold addKeyFlow
    rw [if_neg hn, if_neg hdup2, if_neg hs, if_neg (by simpa using ⟨hy, he⟩)]

/-- C8 amended witness: adding home to a set whose active credential
work already resolves; bare Enter activates home, the answer n leaves
work active. -/
theorem add_always_offers_witness :
    addKeyFlow ⟨none, none, [⟨"work", "sk-abc"⟩], some "work"⟩ "home" "sk-xyz" "" =
      .added true ⟨none, none, [⟨"work", "sk-abc"⟩, ⟨"home", "sk-xyz"⟩], some "home"⟩ ∧
    addKeyFlow ⟨none, none, [⟨"work", "sk-abc"⟩], some "work"⟩ "home" "sk-xyz" "n" =
      .added true ⟨none, none, [⟨"work", "sk-abc"⟩, ⟨"home", "sk-xyz"⟩], some "work"⟩ := by
  have h := add_always_offers ⟨none, none, [⟨"work", "sk-abc"⟩], some "work"⟩
    "home" "sk-xyz" "n" (by decide) (by decide) (by decide)
  have h0 := add_always_offers ⟨none, none, [⟨"work", "sk-abc"⟩], some "work"⟩
    "home" "sk-xyz" "" (by decide) (by decide) (by decide)
  refine ⟨?_, ?_⟩
  · have := h0.1 (Or.inr (by decide))
    rw [this]
    decide
  · have := h.2 (by decide) (by decide)
    rw [this]
    decide

/-- C9 counterexample: in the credential-removal flow a bare Enter is
parsed as an invalid number and removes nothing, so removal has no
default-yes confirmation; the claim that every destructive action
proceeds on empty input fails here. -/
theorem removal_no_default_yes_counterexample :
    removeKeyFlow ⟨none, none, [⟨"work", "k1"⟩, ⟨"home", "k2"⟩], some "work"⟩ "" =
      .invalidInput ⟨none, none, [⟨"work", "k1"⟩, ⟨"home", "k2"⟩], some "work"⟩ ∧
    RemoveOutcome.removalHappened
        (removeKeyFlow ⟨none, none, [⟨"work", "k1"⟩, ⟨"home", "k2"⟩], some "work"⟩ "")
      = false := by
  decide

/-- C9 amended: full registry deletion asks for confirmation and
defaults to yes on bare Enter while an explicit negative answer cancels
with the file kept; credential removal instead asks for a numbered
selection with an explicit cancel entry, and bare Enter is rejected as
invalid input leaving the credential set unchanged. -/
theorem destructive_actions_amended :
    delete_config_file true "" = .deleted ∧
    delete_config_file true "N" = .cancelledByUser ∧
    (∀ c, removeKeyFlow c "" = .invalidInput c) ∧
    removeKeyFlow ⟨none, none, [⟨"work", "k1"⟩, ⟨"home", "k2"⟩], some "work"⟩ "3" =
      .cancelledRemoval ⟨none, none, [⟨"work", "k1"⟩, ⟨"home", "k2"⟩], some "work"⟩ := by
  refine ⟨by decide, by decide, ?_, by decide⟩
  intro c
  unfold removeKeyFlow
  rw [show pyParseInt "" = none from rfl]

/-- C10: when save_config reports success, loading the same path yields
the document just saved; loading a path at which nothing was ever
written yields the distinguished Absent result, not an error.  File
contents are modelled at the level of the parsed JSON document, the
identity round trip of the json library on JSON-representable data
being the external collaborator contract. -/
theorem save_load_round_trip (store : Store) (path : String) (c : Config)
    (writeOk : Bool) :
    ((save_config store path c writeOk).1 = true →
       load_config (save_config store path c writeOk).2 path = .loaded c) ∧
    (List.lookup path store = none → load_config store path = .absent) := by
  constructor
  · intro hok
    cases writeOk with
    | false => simp [save_config] at hok
    | true =>
      show load_config ((path, FileContent.jsonDoc c) :: store) path = .loaded c
      unfold load_config
      rw [List.lookup, show (path == path) = true from beq_self_eq_true path]
  · intro habsent
    unfold load_config
    rw [habsent]

/-- C10 witness: saving a concrete registry to the configured path in
an empty store and loading it back, and a load from the empty store. -/
theorem save_load_round_trip_witness :
    load_config
        (save_config [] "deepshell.conf" ⟨some "ollama", none, []⟩ true).2
        "deepshell.conf" = .loaded ⟨some "ollama", none, []⟩ ∧
    load_config [] "deepshell.conf" = .absent := by
  have h := save_load_round_trip [] "deepshell.conf" ⟨some "ollama", none, []⟩ true
  exact ⟨h.1 rfl, h.2 rfl⟩
